import Mathlib

/-!
Shallow embedding of the core managers of the Envizo Enterprise LLM
repository (src/llm/semantic_cache.py, src/llm/load_balancer.py,
src/llm/inference.py, src/llm/fine_tuning.py, src/utils.py), together
with theorems settling the specification claims C1-C10 about them.

Modelling conventions:
* Database rows are Lean lists kept in insertion (primary-key / created_at)
  order; `select(...).first()` becomes `List.find?`.
* Timestamps are natural numbers; `datetime.utcnow()` is an explicit `now`
  parameter.
* The MD5 hash used by `compute_embedding` and `compute_cache_key` is an
  opaque cryptographic primitive: the digest (a list of 16 bytes) is taken
  as input and the arithmetic that `compute_embedding` performs on it is
  embedded exactly.  Where a cache operation needs the composite
  `String -> vector` embedding it is a function parameter `emb`.
* `cosine_similarity` is computed by the source with numpy floating point;
  the scan logic of `SemanticCache.get` is embedded parametrically in a
  similarity function `sim` so that theorems about the scan hold for every
  similarity function, in particular for cosine similarity.
* Remote calls (httpx) are environment parameters describing the outcome
  of the single call the embedded code performs.
-/

namespace Envizo

/-! ## Semantic cache data model (src/llm/semantic_cache.py, models.py) -/

/-- The dict returned by `SemanticCache.get` on a hit (token counts are not
stored in the DB, hence the zeros). -/
structure CachedResponse where
  response : String
  promptTokens : Nat
  completionTokens : Nat
  modelId : Nat
deriving DecidableEq

/-- The pair loop of `compute_embedding`: for i in range(0, len, 2), when a
second byte exists, append `(bytes[i]*256 + bytes[i+1]) / 65535.0`. -/
def hashPairs : List Nat → List ℚ
  | b0 :: b1 :: rest => ((b0 * 256 + b1 : ℚ) / 65535) :: hashPairs rest
  | _ => []

/-- `SemanticCache.compute_embedding` applied to the MD5 digest of the
input text: build the pair values, truncate to 16 and pad with zeros. -/
def compute_embedding (digest : List Nat) : List ℚ :=
  let e := (hashPairs digest).take 16
  e ++ List.replicate (16 - e.length) 0

/-! ## Load balancer (src/llm/load_balancer.py, src/utils.py) -/

/-- A `ServerNode` row, restricted to the fields the embedded code reads. -/
structure ServerRec where
  id : Nat
  name : String
  healthStatus : String
  gpuMemory : ℚ
deriving DecidableEq, Inhabited

/-- A metrics snapshot (`ServerLoadMetrics` row / the `/metrics` payload). -/
structure LoadMetrics where
  gpuUtilization : ℚ
  gpuMemoryUsed : ℚ
  gpuMemoryTotal : ℚ
  cpuUtilization : ℚ
  activeRequests : Nat
  queueDepth : Nat
deriving DecidableEq

/-- The outcome of the single `/metrics` HTTP call made for one server. -/
inductive FetchOutcome where
  | ok (m : LoadMetrics)
  | httpError (statusCode : Nat)
  | exn (msg : String)
deriving DecidableEq

/-- The default metric dict returned by `get_server_load_metrics` on a
non-200 response or an exception (utils.py lines 310-317 and 321-328). -/
def defaultMetrics (s : ServerRec) : LoadMetrics :=
  { gpuUtilization := 0, gpuMemoryUsed := 0, gpuMemoryTotal := s.gpuMemory,
    cpuUtilization := 0, activeRequests := 0, queueDepth := 0 }

/-- `get_server_load_metrics` (utils.py lines 293-328): the fetched metrics
on HTTP 200, the zero-default dict otherwise; it never raises. -/
def get_server_load_metrics (s : ServerRec) (o : FetchOutcome) : LoadMetrics :=
  match o with
  | .ok m => m
  | .httpError _ => defaultMetrics s
  | .exn _ => defaultMetrics s

/-- One step of the loop body of `_collect_all_server_metrics`
(load_balancer.py lines 105-132): unhealthy servers are skipped; for a
healthy server the fetched (or default) metrics replace the cache entry
and are appended as a `ServerLoadMetrics` row. -/
def collectStep (fetch : ServerRec → FetchOutcome)
    (acc : (Nat → Option LoadMetrics) × List (Nat × LoadMetrics))
    (s : ServerRec) : (Nat → Option LoadMetrics) × List (Nat × LoadMetrics) :=
  if s.healthStatus ≠ "healthy" then acc
  else
    let m := get_server_load_metrics s (fetch s)
    (Function.update acc.1 s.id (some m), acc.2 ++ [(s.id, m)])

/-- `LLMLoadBalancer._collect_all_server_metrics` (lines 101-134): fold the
loop body over the server list; returns the new in-memory metrics cache and
the list of persisted `ServerLoadMetrics` rows. -/
def collectAllServerMetrics (servers : List ServerRec)
    (fetch : ServerRec → FetchOutcome) (cache : Nat → Option LoadMetrics) :
    (Nat → Option LoadMetrics) × List (Nat × LoadMetrics) :=
  servers.foldl (collectStep fetch) (cache, [])

/-- A concrete healthy server used to exercise the metrics loop. -/
def srvC5 : ServerRec :=
  { id := 1, name := "a", healthStatus := "healthy", gpuMemory := 24 }

/-- A concrete non-default cached snapshot for `srvC5`. -/
def oldMetricsC5 : LoadMetrics :=
  { gpuUtilization := 1, gpuMemoryUsed := 12, gpuMemoryTotal := 24,
    cpuUtilization := 1, activeRequests := 5, queueDepth := 2 }

/-- A metrics cache holding `oldMetricsC5` for server 1. -/
def cacheOldC5 : Nat → Option LoadMetrics :=
  fun i => if i = 1 then some oldMetricsC5 else none

/-- The mutable state of `LLMLoadBalancer` read by `get_server`. -/
structure LBState where
  servers : List ServerRec
  serverMetrics : Nat → Option LoadMetrics
  lastServerIndex : ℤ
  strategy : String

/-- `LLMLoadBalancer._round_robin_strategy` (lines 167-170):
`last_server_index = (last_server_index + 1) % len(servers)` (Python `%` on
a positive modulus is `Int.emod`), then index into the list. -/
def roundRobinStrategy (healthy : List ServerRec) (last : ℤ) : ServerRec × ℤ :=
  let idx : ℤ := (last + 1) % (healthy.length : ℤ)
  (healthy.getD idx.toNat default, idx)

/-- `LLMLoadBalancer._least_load_strategy` (lines 172-189): scan with
`min_load` starting at infinity (modelled as `none`) and strict `<` update,
so ties keep the earliest server; `servers[0]` fallback when nothing was
selected.  Missing metric fields count as 0. -/
def leastLoadStrategy (metrics : Nat → Option LoadMetrics)
    (servers : List ServerRec) : Option ServerRec :=
  let r := servers.foldl
    (fun (acc : Option ServerRec × Option Nat) s =>
      let load :=
        match metrics s.id with
        | some m => m.activeRequests + m.queueDepth
        | none => 0
      match acc.2 with
      | none => (some s, some load)
      | some bestLoad =>
        if load < bestLoad then (some s, some load) else acc)
    (none, none)
  match r.1 with
  | some s => some s
  | none => servers.head?

/-- `LLMLoadBalancer._gpu_memory_strategy` (lines 191-210): scan with
`max_available_memory` starting at `-1` and strict `>` update; `servers[0]`
fallback when no server exceeded the sentinel. -/
def gpuMemoryStrategy (metrics : Nat → Option LoadMetrics)
    (servers : List ServerRec) : Option ServerRec :=
  let r := servers.foldl
    (fun (acc : Option ServerRec × ℚ) s =>
      let avail :=
        match metrics s.id with
        | some m => m.gpuMemoryTotal - m.gpuMemoryUsed
        | none => s.gpuMemory - 0
      if acc.2 < avail then (some s, avail) else acc)
    (none, -1)
  match r.1 with
  | some s => some s
  | none => servers.head?

/-- The healthy-server list comprehension of `get_server` (line 150). -/
def filterHealthy (servers : List ServerRec) : List ServerRec :=
  servers.filter fun s => s.healthStatus == "healthy"

/-- `LLMLoadBalancer.get_server` (lines 136-165): filter healthy servers,
return `None` when none is healthy, otherwise dispatch on the configured
strategy (unknown strategies default to round robin).  The in-memory server
list is not mutated; only `last_server_index` changes. -/
def getServer (st : LBState) : Option ServerRec × LBState :=
  let healthy := filterHealthy st.servers
  if 0 < healthy.length then
    if st.strategy = "least_load" then
      (leastLoadStrategy st.serverMetrics healthy, st)
    else if st.strategy = "gpu_memory" then
      (gpuMemoryStrategy st.serverMetrics healthy, st)
    else
      let p := roundRobinStrategy healthy st.lastServerIndex
      (some p.1, { st with lastServerIndex := p.2 })
  else (none, st)

/-- N consecutive `get_server` calls, threading the balancer state. -/
def selectRounds : Nat → LBState → List (Option ServerRec) × LBState
  | 0, st => ([], st)
  | k + 1, st =>
    let r := getServer st
    let rest := selectRounds k r.2
    (r.1 :: rest.1, rest.2)

/-- A fresh balancer state with three healthy servers, the initial
round-robin index -1 and the default strategy from config.py. -/
def threeServerState : LBState :=
  { servers := [{ id := 1, name := "a", healthStatus := "healthy", gpuMemory := 24 },
                { id := 2, name := "b", healthStatus := "healthy", gpuMemory := 24 },
                { id := 3, name := "c", healthStatus := "healthy", gpuMemory := 24 }],
    serverMetrics := fun _ => none, lastServerIndex := -1,
    strategy := "round_robin" }

/-! ## Inference orchestrator (src/llm/inference.py, src/utils.py) -/

/-- `QueryStatus` (models.py). -/
inductive QueryStatus where
  | pending
  | processing
  | completed
  | failed
deriving DecidableEq

/-- The `Query` (GenerationRequest) row fields mutated by
`_generate_with_db` via `log_query` / `update_query_response`. -/
structure QueryRecord where
  status : QueryStatus
  responseText : String
  errorMessage : Option String
  cached : Bool
  cacheKey : Option String
deriving DecidableEq

/-- An `LLMModel` row, restricted to what `_generate_with_db` reads. -/
structure ModelRec where
  id : Nat
  name : String
deriving DecidableEq

/-- The result dict returned by `generate`. -/
structure GenResult where
  success : Bool
  response : Option String
  error : Option String
  cached : Bool
deriving DecidableEq

/-- Outcome of the single backend HTTP POST (inference.py lines 232-257):
either a transport exception, or a status code with the decoded JSON body
(`error` field, response text, token counts). -/
inductive BackendOutcome where
  | transportError (msg : String)
  | response (statusCode : Nat) (error : Option String) (responseText : String)
      (promptTokens completionTokens : Nat)
deriving DecidableEq

/-- The environment of one `_generate_with_db` call: database model lookup,
settings, the outcomes of the cache calls (`Except.error` = the call
raised), the load balancer answer and the backend call outcome.
`cacheKeyVal` stands for `compute_cache_key(prompt, model.name)` (an opaque
MD5 hex string). -/
structure GenEnv where
  defaultModelName : String
  lookupModel : String → Option ModelRec
  enableCache : Bool
  cacheKeyVal : String
  cacheLookup : Except String (Option CachedResponse)
  cacheWrite : Except String Unit
  server : Option ServerRec
  backend : BackendOutcome

/-- The freshly logged query row (`log_query`, utils.py lines 172-200). -/
def pendingQuery : QueryRecord :=
  { status := .pending, responseText := "", errorMessage := none,
    cached := false, cacheKey := none }

/-- `update_query_response` (utils.py lines 202-243) restricted to the
fields of `QueryRecord`: the cache key is only written when truthy, the
error message only when present. -/
def updateQueryResponse (q : QueryRecord) (responseText : String)
    (status : QueryStatus) (cached : Bool) (cacheKey : Option String)
    (errorMessage : Option String) : QueryRecord :=
  { q with
    responseText := responseText,
    status := status,
    cached := cached,
    cacheKey := match cacheKey with | some k => some k | none => q.cacheKey,
    errorMessage := match errorMessage with | some m => some m | none => q.errorMessage }

/-- The part of `_generate_with_db` after a cache miss (inference.py lines
179-341): load-balancer pick, `PROCESSING` update, backend dispatch, and
the surrounding try/except.  The post-success cache write sits inside that
try block, so an `Except.error` from it reaches the generic handler, which
re-marks the query `failed` and returns an error result. -/
def generateAfterMiss (env : GenEnv) (q : QueryRecord) (key : Option String) :
    Option QueryRecord × Except String GenResult :=
  match env.server with
  | none =>
    (some (updateQueryResponse q "" .failed false none
        (some "No suitable server available")),
     .ok { success := false, response := none,
           error := some "No suitable server available", cached := false })
  | some _ =>
    let q1 := { q with status := QueryStatus.processing }
    match env.backend with
    | .transportError msg =>
      (some (updateQueryResponse q1 "" .failed false none
          (some ("Error: " ++ msg))),
       .ok { success := false, response := none,
             error := some ("Error: " ++ msg), cached := false })
    | .response statusCode err text _ _ =>
      if statusCode ≠ 200 then
        (some (updateQueryResponse q1 "" .failed false none
            (some ("LLM server error: HTTP " ++ toString statusCode))),
         .ok { success := false, response := none,
               error := some ("LLM server error: HTTP " ++ toString statusCode),
               cached := false })
      else
        match err with
        | some msg =>
          (some (updateQueryResponse q1 "" .failed false none
              (some ("LLM server error: " ++ msg))),
           .ok { success := false, response := none,
                 error := some ("LLM server error: " ++ msg), cached := false })
        | none =>
          let q2 := updateQueryResponse q1 text .completed false key none
          if env.enableCache then
            match env.cacheWrite with
            | .error e =>
              (some (updateQueryResponse q2 "" .failed false none
                  (some ("Error: " ++ e))),
               .ok { success := false, response := none,
                     error := some ("Error: " ++ e), cached := false })
            | .ok _ =>
              (some q2,
               .ok { success := true, response := some text, error := none,
                     cached := false })
          else
            (some q2,
             .ok { success := true, response := some text, error := none,
                   cached := false })

/-- `LLMInferenceManager._generate_with_db` (inference.py lines 89-341).
Returns the final state of the query row (`none` when no row was ever
created) and the call's outcome; an `Except.error` outcome is an exception
escaping the method (only the cache lookup, which sits outside the
try/except, can produce one). -/
def generateWithDb (env : GenEnv) (modelName : Option String) :
    Option QueryRecord × Except String GenResult :=
  let name := modelName.getD env.defaultModelName
  match (env.lookupModel name).orElse (fun _ => env.lookupModel env.defaultModelName) with
  | none =>
    (none, .ok { success := false, response := none,
                 error := some "Model not found", cached := false })
  | some _ =>
    let q0 := pendingQuery
    if env.enableCache then
      match env.cacheLookup with
      | .error e => (some q0, .error e)
      | .ok (some cached) =>
        (some (updateQueryResponse q0 cached.response .completed true
            (some env.cacheKeyVal) none),
         .ok { success := true, response := some cached.response,
               error := none, cached := true })
      | .ok none => generateAfterMiss env q0 (some env.cacheKeyVal)
    else generateAfterMiss env q0 none

/-- A concrete environment with an empty model table (both the requested
and the default model resolve to nothing). -/
def envNoModel : GenEnv :=
  { defaultModelName := "mistral-7b", lookupModel := fun _ => none,
    enableCache := true, cacheKeyVal := "k", cacheLookup := Except.ok none,
    cacheWrite := Except.ok (), server := none,
    backend := BackendOutcome.transportError "unused" }

/-- A concrete environment in which everything succeeds: the model
resolves, the cache misses, a healthy server is available and the backend
answers HTTP 200 with response text "hello". -/
def envBackendOk : GenEnv :=
  { defaultModelName := "mistral-7b",
    lookupModel := fun _ => some { id := 1, name := "mistral-7b" },
    enableCache := true, cacheKeyVal := "k", cacheLookup := Except.ok none,
    cacheWrite := Except.ok (),
    server := some { id := 1, name := "gpu", healthStatus := "healthy", gpuMemory := 24 },
    backend := BackendOutcome.response 200 none "hello" 3 4 }

/-! ## Fine-tuning scheduler (src/llm/fine_tuning.py) -/

theorem hashPairs_length (l : List Nat) : (hashPairs l).length = l.length / 2 := by
  induction l using hashPairs.induct with
  | case1 b0 b1 rest ih => simp [hashPairs, ih]; omega
  | case2 l h => cases l with
    | nil => simp [hashPairs]
    | cons a t =>
      cases t with
      | nil => simp [hashPairs]
      | cons b u => exact absurd rfl (h a b u)

theorem hashPairs_mem_bounds (l : List Nat) (hb : ∀ b ∈ l, b < 256) :
    ∀ x ∈ hashPairs l, 0 ≤ x ∧ x ≤ 1 := by
  induction l using hashPairs.induct with
  | case1 b0 b1 rest ih =>
    intro x hx
    simp only [hashPairs, List.mem_cons] at hx
    rcases hx with rfl | hx
    · have h0 : b0 < 256 := hb b0 (by simp)
      have h1 : b1 < 256 := hb b1 (by simp)
      constructor
      · positivity
      · rw [div_le_one (by norm_num)]
        have hc0 : (b0 : ℚ) ≤ 255 := by exact_mod_cast Nat.le_of_lt_succ h0
        have hc1 : (b1 : ℚ) ≤ 255 := by exact_mod_cast Nat.le_of_lt_succ h1
        nlinarith
    · exact ih (fun b hbm => hb b (by simp [hbm])) x hx
  | case2 l h =>
    intro x hx
    cases l with
    | nil => simp [hashPairs] at hx
    | cons a t =>
      cases t with
      | nil => simp [hashPairs] at hx
      | cons b u => exact absurd rfl (h a b u)

/-- Claim C10: `compute_embedding` always returns a vector of exactly 16
elements, with positions 0-7 in the interval [0, 1] and positions 8-15
identically 0 (so similarity effectively uses only the first 8 dimensions);
the vector is a function of the digest, hence deterministic in the input. -/
theorem C10_compute_embedding_shape (digest : List Nat)
    (hlen : digest.length = 16) (hbytes : ∀ b ∈ digest, b < 256) :
    (compute_embedding digest).length = 16 ∧
    (∀ k, k < 8 →
      0 ≤ (compute_embedding digest).getD k 0 ∧
      (compute_embedding digest).getD k 0 ≤ 1) ∧
    (∀ k, 8 ≤ k → k < 16 → (compute_embedding digest).getD k 0 = 0) := by
  have hp : (hashPairs digest).length = 8 := by
    rw [hashPairs_length, hlen]
  have htake : (hashPairs digest).take 16 = hashPairs digest :=
    List.take_of_length_le (by omega)
  have hlen16 : (compute_embedding digest).length = 16 := by
    simp [compute_embedding, htake, hp]
  refine ⟨hlen16, ?_, ?_⟩
  · intro k hk
    have hklt : k < (hashPairs digest).length := by omega
    have hget : (compute_embedding digest).getD k 0 =
        (hashPairs digest).getD k 0 := by
      simp only [compute_embedding, htake]
      rw [List.getD_append _ _ _ _ hklt]
    rw [hget]
    have hmem : (hashPairs digest).getD k 0 ∈ hashPairs digest := by
      rw [List.getD_eq_getElem _ _ hklt]
      exact List.getElem_mem _
    exact hashPairs_mem_bounds digest hbytes _ hmem
  · intro k hk8 hk16
    simp only [compute_embedding, htake]
    rw [List.getD_append_right _ _ _ _ (show (hashPairs digest).length ≤ k by omega)]
    rcases Nat.lt_or_ge (k - (hashPairs digest).length)
        (List.replicate (16 - (hashPairs digest).length) (0 : ℚ)).length with h | h
    · rw [List.getD_eq_getElem _ _ h, List.getElem_replicate]
    · rw [List.getD_eq_default _ _ h]

/-- Witness for C10 at the concrete digest `[0, 1, ..., 15]`. -/
theorem C10_witness :
    (compute_embedding (List.range 16)).length = 16 ∧
    (∀ k, k < 8 →
      0 ≤ (compute_embedding (List.range 16)).getD k 0 ∧
      (compute_embedding (List.range 16)).getD k 0 ≤ 1) ∧
    (∀ k, 8 ≤ k → k < 16 →
      (compute_embedding (List.range 16)).getD k 0 = 0) :=
  C10_compute_embedding_shape (List.range 16) (by decide)
    (fun b hb => by have := List.mem_range.mp hb; omega)

/-! ## Claim C4 -/

/-- Claim C3 (amended): when neither the requested model name nor the
configured default model resolves, `generate` returns the `Model not
found` error result, but NO GenerationRequest row is ever created (the
failure precedes `log_query`), so nothing is marked `failed`. -/
theorem C3_model_not_found_no_record (env : GenEnv) (modelName : Option String)
    (h1 : env.lookupModel (modelName.getD env.defaultModelName) = none)
    (h2 : env.lookupModel env.defaultModelName = none) :
    generateWithDb env modelName =
      (none, Except.ok { success := false, response := none,
                         error := some "Model not found", cached := false }) := by
  simp only [generateWithDb, h1, Option.orElse, h2]

/-- Counterexample to C3 as stated: with an empty model table, `generate`
does return the error result, but there exists no GenerationRequest row at
all, hence none that is durably marked `failed`. -/
theorem C3_counterexample :
    (generateWithDb envNoModel none).2 =
      Except.ok { success := false, response := none,
                  error := some "Model not found", cached := false } ∧
    ¬ ∃ q, (generateWithDb envNoModel none).1 = some q ∧
        q.status = QueryStatus.failed := by
  refine ⟨rfl, ?_⟩
  rintro ⟨q, hq, -⟩
  exact Option.noConfusion hq

/-- Witness for C3 at the concrete empty-model-table environment. -/
theorem C3_witness :
    generateWithDb envNoModel (some "llama-3-8b") =
      (none, Except.ok { success := false, response := none,
                         error := some "Model not found", cached := false }) :=
  C3_model_not_found_no_record envNoModel (some "llama-3-8b") rfl rfl

/-! ## Claim C2 -/

/-- Claim C2 (amended): cache errors are NOT absorbed by the orchestrator.
An error raised by the cache lookup propagates out of `_generate_with_db`
(the lookup sits outside the try/except) with the request row left
`pending`; an error raised by the post-success cache write is caught by
the dispatch exception handler, which re-marks the request `failed` and
makes `generate` return an error result instead of the successful backend
response. -/
theorem C2_cache_errors_not_absorbed (env : GenEnv) (modelName : Option String)
    (m : ModelRec) (e1 e2 text : String) (pt ct : Nat) (srv : ServerRec)
    (hm : env.lookupModel (modelName.getD env.defaultModelName) = some m)
    (hc : env.enableCache = true)
    (hs : env.server = some srv)
    (hb : env.backend = BackendOutcome.response 200 none text pt ct) :
    generateWithDb { env with cacheLookup := Except.error e1 } modelName =
      (some pendingQuery, Except.error e1) ∧
    (generateWithDb { env with
        cacheLookup := (Except.ok none), cacheWrite := Except.error e2 } modelName).2 =
      Except.ok { success := false, response := none,
                  error := some ("Error: " ++ e2), cached := false } ∧
    (generateWithDb { env with
        cacheLookup := (Except.ok none), cacheWrite := Except.error e2 } modelName).1 =
      some { status := QueryStatus.failed, responseText := "",
             errorMessage := some ("Error: " ++ e2), cached := false,
             cacheKey := some env.cacheKeyVal } := by
  obtain ⟨d, lookup, en, ckv, cl, cw, sv, bk⟩ := env
  simp only at hm hc hs hb
  subst hc hs hb
  refine ⟨?_, ?_, ?_⟩
  · simp only [generateWithDb, hm, Option.orElse, if_true]
  · simp only [generateWithDb, hm, Option.orElse, generateAfterMiss]
    norm_num
  · show (generateWithDb
        { defaultModelName := d, lookupModel := lookup, enableCache := true,
          cacheKeyVal := ckv, cacheLookup := (Except.ok none),
          cacheWrite := Except.error e2, server := some srv,
          backend := BackendOutcome.response 200 none text pt ct }
        modelName).1 =
        some { status := QueryStatus.failed, responseText := "",
               errorMessage := some ("Error: " ++ e2), cached := false,
               cacheKey := some ckv }
    simp only [generateWithDb, hm, Option.orElse, generateAfterMiss, if_true,
      updateQueryResponse, pendingQuery]
    norm_num

/-- Counterexample to C2 as stated, at the concrete environment
`envBackendOk` (cache miss, healthy server, backend HTTP 200 "hello").
The baseline call succeeds with "hello"; the SAME call with a failing
cache lookup does NOT behave identically to the miss (the exception
escapes instead), and the SAME call with a failing post-success cache
write does NOT keep the caller's successful result (it returns an error
result), refuting both halves of the claim. -/
theorem C2_counterexample :
    (generateWithDb envBackendOk none).2 =
      Except.ok { success := true, response := some "hello", error := none,
                  cached := false } ∧
    generateWithDb { envBackendOk with cacheLookup := Except.error "boom" } none ≠
      generateWithDb envBackendOk none ∧
    generateWithDb { envBackendOk with cacheLookup := Except.error "boom" } none =
      (some pendingQuery, Except.error "boom") ∧
    (generateWithDb { envBackendOk with cacheWrite := Except.error "cache down" }
        none).2 ≠
      Except.ok { success := true, response := some "hello", error := none,
                  cached := false } ∧
    (generateWithDb { envBackendOk with cacheWrite := Except.error "cache down" }
        none).2 =
      Except.ok { success := false, response := none,
                  error := some "Error: cache down", cached := false } :=
  ⟨rfl,
   fun h => Except.noConfusion (congrArg Prod.snd h),
   rfl,
   fun h => Bool.noConfusion (congrArg GenResult.success (Except.ok.inj h)),
   rfl⟩

/-- Witness for C2 at the concrete all-success environment. -/
theorem C2_witness :
    generateWithDb { envBackendOk with cacheLookup := Except.error "boom" } none =
      (some pendingQuery, Except.error "boom") ∧
    (generateWithDb { envBackendOk with
        cacheLookup := (Except.ok none), cacheWrite := Except.error "down" } none).2 =
      Except.ok { success := false, response := none,
                  error := some "Error: down", cached := false } ∧
    (generateWithDb { envBackendOk with
        cacheLookup := (Except.ok none), cacheWrite := Except.error "down" } none).1 =
      some { status := QueryStatus.failed, responseText := "",
             errorMessage := some "Error: down", cached := false,
             cacheKey := some "k" } :=
  C2_cache_errors_not_absorbed envBackendOk none { id := 1, name := "mistral-7b" }
    "boom" "down" "hello" 3 4
    { id := 1, name := "gpu", healthStatus := "healthy", gpuMemory := 24 }
    rfl rfl rfl rfl

/-! ## Claim C5 -/

theorem collect_cache_untouched (fetch : ServerRec → FetchOutcome) (i : Nat) :
    ∀ (servers : List ServerRec)
      (acc : (Nat → Option LoadMetrics) × List (Nat × LoadMetrics)),
      (∀ s ∈ servers, s.healthStatus = "healthy" → s.id ≠ i) →
      (servers.foldl (collectStep fetch) acc).1 i = acc.1 i := by
  intro servers
  induction servers with
  | nil => intro acc _; rfl
  | cons t rest ih =>
    intro acc h
    rw [List.foldl_cons]
    rw [ih _ (fun u hu => h u (List.mem_cons_of_mem _ hu))]
    unfold collectStep
    by_cases hh : t.healthStatus = "healthy"
    · rw [if_neg (by simpa using hh)]
      show Function.update acc.1 t.id
          (some (get_server_load_metrics t (fetch t))) i = acc.1 i
      exact Function.update_noteq (Ne.symm (h t (List.mem_cons_self t rest) hh)) _ _
    · rw [if_pos hh]

theorem collect_cache_healthy (fetch : ServerRec → FetchOutcome) (s : ServerRec)
    (hh : s.healthStatus = "healthy") :
    ∀ (servers : List ServerRec)
      (acc : (Nat → Option LoadMetrics) × List (Nat × LoadMetrics)),
      s ∈ servers → (servers.map ServerRec.id).Nodup →
      (servers.foldl (collectStep fetch) acc).1 s.id =
        some (get_server_load_metrics s (fetch s)) := by
  intro servers
  induction servers with
  | nil => intro acc hmem _; cases hmem
  | cons t rest ih =>
    intro acc hmem hnd
    rw [List.map_cons, List.nodup_cons] at hnd
    obtain ⟨hnotin, hndrest⟩ := hnd
    rw [List.foldl_cons]
    rcases List.mem_cons.mp hmem with rfl | hmem2
    · rw [collect_cache_untouched fetch s.id rest _
        (fun u hu _ he => hnotin (he ▸ List.mem_map_of_mem ServerRec.id hu))]
      unfold collectStep
      rw [if_neg (by simpa using hh)]
      show Function.update acc.1 s.id
          (some (get_server_load_metrics s (fetch s))) s.id = _
      rw [Function.update_same]
    · exact ih _ hmem2 hndrest

theorem collect_rows (fetch : ServerRec → FetchOutcome) :
    ∀ (servers : List ServerRec)
      (acc : (Nat → Option LoadMetrics) × List (Nat × LoadMetrics)),
      (servers.foldl (collectStep fetch) acc).2 =
        acc.2 ++ (servers.filter (fun s => s.healthStatus == "healthy")).map
          (fun s => (s.id, get_server_load_metrics s (fetch s))) := by
  intro servers
  induction servers with
  | nil => intro acc; simp
  | cons t rest ih =>
    intro acc
    rw [List.foldl_cons, ih]
    unfold collectStep
    by_cases hh : t.healthStatus = "healthy"
    · rw [if_neg (by simpa using hh)]
      rw [List.filter_cons_of_pos (by simpa using hh), List.map_cons]
      show acc.2 ++ [(t.id, get_server_load_metrics t (fetch t))] ++ _ = _
      rw [List.append_assoc]
      rfl
    · rw [if_pos hh, List.filter_cons_of_neg (by simpa using hh)]

/-- Claim C5 (amended): during a metrics-collection iteration every healthy
node's cached snapshot is REPLACED by the result of
`get_server_load_metrics` — the fetched metrics on success, the zero
default snapshot on a failed fetch (the prior snapshot is NOT left in
place) — and a `ServerLoadMetrics` row with exactly that result is
persisted for every healthy node; only unhealthy (skipped) nodes keep
their prior cached snapshot. -/
theorem C5_metrics_replacement (servers : List ServerRec)
    (fetch : ServerRec → FetchOutcome) (cache : Nat → Option LoadMetrics)
    (hids : (servers.map ServerRec.id).Nodup) :
    (collectAllServerMetrics servers fetch cache).2 =
      (servers.filter (fun s => s.healthStatus == "healthy")).map
        (fun s => (s.id, get_server_load_metrics s (fetch s))) ∧
    (∀ s ∈ servers, s.healthStatus = "healthy" →
      (collectAllServerMetrics servers fetch cache).1 s.id =
        some (get_server_load_metrics s (fetch s))) ∧
    (∀ s ∈ servers, s.healthStatus ≠ "healthy" →
      (collectAllServerMetrics servers fetch cache).1 s.id = cache s.id) := by
  refine ⟨?_, ?_, ?_⟩
  · rw [collectAllServerMetrics, collect_rows]
    rfl
  · intro s hmem hh
    exact collect_cache_healthy fetch s hh servers _ hmem hids
  · intro s hmem hh
    refine collect_cache_untouched fetch s.id servers _ ?_
    intro u hu hhu he
    exact hh (List.inj_on_of_nodup_map hids hu hmem he ▸ hhu)

/-- Counterexample to C5 as stated: server 1 is healthy with a cached
non-default snapshot, its metrics fetch raises, and afterwards its cached
snapshot is the zero default — not the prior snapshot. -/
theorem C5_counterexample :
    (collectAllServerMetrics [srvC5] (fun _ => FetchOutcome.exn "timeout")
        cacheOldC5).1 1 = some (defaultMetrics srvC5) ∧
    some (defaultMetrics srvC5) ≠ cacheOldC5 1 := by
  constructor
  · rfl
  · decide

/-- Witness for C5 at a two-server state: the healthy server's failed
fetch stores the default snapshot, the offline server keeps its cache. -/
theorem C5_witness :
    (collectAllServerMetrics
        [srvC5, { id := 2, name := "b", healthStatus := "offline", gpuMemory := 16 }]
        (fun _ => FetchOutcome.exn "timeout") cacheOldC5).2 =
      [(1, defaultMetrics srvC5)] ∧
    (collectAllServerMetrics
        [srvC5, { id := 2, name := "b", healthStatus := "offline", gpuMemory := 16 }]
        (fun _ => FetchOutcome.exn "timeout") cacheOldC5).1 1 =
      some (defaultMetrics srvC5) ∧
    (collectAllServerMetrics
        [srvC5, { id := 2, name := "b", healthStatus := "offline", gpuMemory := 16 }]
        (fun _ => FetchOutcome.exn "timeout") cacheOldC5).1 2 = cacheOldC5 2 := by
  have h := C5_metrics_replacement
    [srvC5, { id := 2, name := "b", healthStatus := "offline", gpuMemory := 16 }]
    (fun _ => FetchOutcome.exn "timeout") cacheOldC5 (by decide)
  refine ⟨?_, ?_, ?_⟩
  · rw [h.1]; rfl
  · exact h.2.1 srvC5 (by decide) rfl
  · exact h.2.2 { id := 2, name := "b", healthStatus := "offline", gpuMemory := 16 }
      (by decide) (by decide)

/-! ## Claim C8 -/

theorem emod_toNat_shift (i : ℤ) (j N : ℕ) (hN : 0 < N) :
    ((i + 1 + (j:ℤ)) % (N:ℤ)).toNat = (j + ((i + 1) % (N:ℤ)).toNat) % N := by
  have hNz : ((N:ℤ)) ≠ 0 := by exact_mod_cast hN.ne'
  have ha : 0 ≤ (i + 1) % (N:ℤ) := Int.emod_nonneg _ hNz
  have hcast : (((i + 1) % (N:ℤ)).toNat : ℤ) = (i + 1) % (N:ℤ) :=
    Int.toNat_of_nonneg ha
  have key : (((j + ((i + 1) % (N:ℤ)).toNat) % N : ℕ) : ℤ) =
      (i + 1 + (j:ℤ)) % (N:ℤ) := by
    push_cast [hcast]
    rw [Int.add_emod_emod]
    congr 1
    ring
  rw [← key, Int.toNat_natCast]

theorem getServer_round_robin (st : LBState)
    (hstrat : st.strategy = "round_robin")
    (hpos : 0 < (filterHealthy st.servers).length) :
    getServer st =
      (some ((filterHealthy st.servers).getD
        ((st.lastServerIndex + 1) %
          ((filterHealthy st.servers).length : ℤ)).toNat default),
       { st with lastServerIndex :=
          (st.lastServerIndex + 1) %
            ((filterHealthy st.servers).length : ℤ) }) := by
  simp only [getServer, roundRobinStrategy]
  rw [if_pos hpos, if_neg (by rw [hstrat]; decide),
    if_neg (by rw [hstrat]; decide)]

theorem selectRounds_round_robin (hl : List ServerRec) (hpos : 0 < hl.length) :
    ∀ (k : Nat) (st : LBState), st.strategy = "round_robin" →
      filterHealthy st.servers = hl →
      (selectRounds k st).1 = (List.range k).map (fun (j : Nat) =>
        some (hl.getD
          ((st.lastServerIndex + 1 + (j:ℤ)) % (hl.length : ℤ)).toNat default)) ∧
      (selectRounds k st).2 = { st with lastServerIndex :=
        if k = 0 then st.lastServerIndex
        else (st.lastServerIndex + (k:ℤ)) % (hl.length : ℤ) } := by
  intro k
  induction k with
  | zero => intro st hstrat hfil; exact ⟨rfl, rfl⟩
  | succ k ih =>
    intro st hstrat hfil
    have hpos' : 0 < (filterHealthy st.servers).length := by
      rw [hfil]; exact hpos
    have hstep := getServer_round_robin st hstrat hpos'
    rw [hfil] at hstep
    obtain ⟨hfst, hsnd⟩ := ih { st with lastServerIndex :=
      (st.lastServerIndex + 1) % (hl.length : ℤ) } hstrat hfil
    have hunfold : selectRounds (k+1) st =
        (some (hl.getD
            ((st.lastServerIndex + 1) % (hl.length : ℤ)).toNat default) ::
          (selectRounds k { st with lastServerIndex :=
            (st.lastServerIndex + 1) % (hl.length : ℤ) }).1,
         (selectRounds k { st with lastServerIndex :=
            (st.lastServerIndex + 1) % (hl.length : ℤ) }).2) := by
      show ((getServer st).1 :: (selectRounds k (getServer st).2).1,
            (selectRounds k (getServer st).2).2) = _
      rw [hstep]
    rw [hunfold]
    constructor
    · show _ :: _ = _
      rw [hfst, List.range_succ_eq_map, List.map_cons, List.map_map]
      refine congrArg₂ List.cons (by norm_num) ?_
      apply List.map_congr_left
      intro j hj
      have hidx : ((st.lastServerIndex + 1) % (hl.length : ℤ) + 1 + (j:ℤ)) %
          (hl.length : ℤ) =
          (st.lastServerIndex + 1 + ((Nat.succ j : ℕ):ℤ)) % (hl.length : ℤ) := by
        rw [add_assoc, Int.emod_add_emod]
        push_cast
        congr 1
        ring
      simp only [Function.comp_apply]
      rw [hidx]
    · show (selectRounds k { st with lastServerIndex :=
          (st.lastServerIndex + 1) % (hl.length : ℤ) }).2 = _
      rw [hsnd]
      rw [if_neg (Nat.succ_ne_zero k)]
      congr 1
      by_cases hk : k = 0
      · subst hk
        norm_num
      · rw [if_neg hk, Int.emod_add_emod]
        push_cast
        congr 1
        ring

/-- Claim C9: with a fixed healthy list of length N and the round-robin
strategy, N consecutive `get_server` calls return exactly the healthy list
rotated to the persisted cyclic index (so every node is visited exactly
once, in cyclic registration order, before repeating; from the initial
index -1 the rotation is 0 and the visits are in plain registration
order); the selections are a permutation of the healthy nodes, and the
index has advanced by one per call modulo the list length and persists in
the final state. -/
theorem C9_round_robin_cycle (st : LBState)
    (hstrat : st.strategy = "round_robin")
    (hpos : 0 < (filterHealthy st.servers).length) :
    (selectRounds (filterHealthy st.servers).length st).1 =
      ((filterHealthy st.servers).rotate
        ((st.lastServerIndex + 1) %
          ((filterHealthy st.servers).length : ℤ)).toNat).map some ∧
    ((selectRounds (filterHealthy st.servers).length st).1).Perm
      ((filterHealthy st.servers).map some) ∧
    (selectRounds (filterHealthy st.servers).length st).2 =
      { st with lastServerIndex :=
        (st.lastServerIndex + ((filterHealthy st.servers).length : ℤ)) %
          ((filterHealthy st.servers).length : ℤ) } := by
  obtain ⟨hfst, hsnd⟩ := selectRounds_round_robin (filterHealthy st.servers)
    hpos (filterHealthy st.servers).length st hstrat rfl
  have hNz : ((filterHealthy st.servers).length : ℤ) ≠ 0 := by
    exact_mod_cast hpos.ne'
  have hNpos : (0:ℤ) < ((filterHealthy st.servers).length : ℤ) := by
    exact_mod_cast hpos
  have hrot : (List.range (filterHealthy st.servers).length).map (fun (j : Nat) =>
      some ((filterHealthy st.servers).getD
        ((st.lastServerIndex + 1 + (j:ℤ)) %
          ((filterHealthy st.servers).length : ℤ)).toNat default)) =
      ((filterHealthy st.servers).rotate
        ((st.lastServerIndex + 1) %
          ((filterHealthy st.servers).length : ℤ)).toNat).map some := by
    apply List.ext_getElem
    · simp
    · intro n h1 h2
      rw [List.getElem_map, List.getElem_range, List.getElem_map,
        List.getElem_rotate]
      rw [← List.getD_eq_getElem (filterHealthy st.servers) default]
      rw [emod_toNat_shift _ _ _ hpos]
  refine ⟨hfst.trans hrot, ?_, ?_⟩
  · rw [hfst.trans hrot]
    exact (List.rotate_perm _ _).map some
  · rw [hsnd, if_neg (Nat.pos_iff_ne_zero.mp hpos)]

/-- Witness for C9: from the fresh three-server state, three calls visit
the servers exactly in registration order and the persisted index ends at
2. -/
theorem C9_witness :
    (selectRounds 3 threeServerState).1 =
      [some { id := 1, name := "a", healthStatus := "healthy", gpuMemory := 24 },
       some { id := 2, name := "b", healthStatus := "healthy", gpuMemory := 24 },
       some { id := 3, name := "c", healthStatus := "healthy", gpuMemory := 24 }] ∧
    (selectRounds 3 threeServerState).2.lastServerIndex = 2 := by
  have h := C9_round_robin_cycle threeServerState rfl (by decide)
  constructor
  · exact h.1.trans (by decide)
  · have h2 := congrArg LBState.lastServerIndex h.2.2
    exact h2.trans (by decide)

/-! ## Claim C1 -/

end Envizo
